import Mathlib

/-!
Verification of the sparkfund model-registry / risk-scoring core.

Shallow embedding of:
- `services/kyc-service/internal/ai/feature_engineering.py`
- `services/kyc-service/internal/ai/fraud_detection.py`
- `services/aml-service/internal/ai/fraud_detection.py`
- `services/ai-service/src/services/model_service.py`

Machine reals (Python floats) are modelled as `ℚ`; Python strings as Lean
`String`; parsed datetimes as integer day counts; absent JSON fields as
`Option`.  Fallible paths return explicit error values.
-/

namespace Py

/-- Python string `<` (and hence `sorted` on strings): code-point
lexicographic comparison. -/
def pyStrLt : List Char → List Char → Bool
  | [], [] => false
  | [], _ :: _ => true
  | _ :: _, [] => false
  | a :: as, b :: bs =>
    if a.toNat < b.toNat then true
    else if b.toNat < a.toNat then false
    else pyStrLt as bs

/-- Python `str.split(c)` for a single-character separator: splits at every
occurrence of `c`, keeping empty segments, always yielding at least one
segment. -/
def splitOnChar (c : Char) : List Char → List (List Char)
  | [] => [[]]
  | x :: xs =>
    match splitOnChar c xs with
    | [] => [[x]]
    | g :: gs => if x = c then [] :: g :: gs else (x :: g) :: gs

/-- Python `str.split(" | ")`: splits at every non-overlapping occurrence of
the three-character separator `" | "`, scanning left to right. -/
def splitBar : List Char → List (List Char)
  | ' ' :: '|' :: ' ' :: rest => [] :: splitBar rest
  | c :: cs =>
    match splitBar cs with
    | [] => [[c]]
    | g :: gs => (c :: g) :: gs
  | [] => [[]]

/-- Lean-string wrapper for `s.split(" | ")`. -/
def pySplitBar (s : String) : List String :=
  (splitBar s.data).map String.mk

end Py

namespace Sklearn

/-- A fitted `sklearn.preprocessing.StandardScaler`: per-column mean and
scale. -/
structure Scaler where
  mean : List ℚ
  scale : List ℚ

/-- The `scaler.transform` of a single row: `(x - mean) / scale` columnwise. -/
def Scaler.transformRow (sc : Scaler) (x : List ℚ) : List ℚ :=
  List.zipWith (fun xi p => (xi - p.1) / p.2) x (sc.mean.zip sc.scale)

/-- Behavior of `StandardScaler.fit` on a matrix holding a single row: the per-column
mean is that row itself, the per-column population variance is `0`, and
sklearn substitutes a scale of `1` for a zero standard deviation
(`_handle_zeros_in_scale`). -/
def fitSingleRow (x : List ℚ) : Scaler :=
  { mean := x, scale := x.map (fun _ => 1) }

/-- An opaque fitted classifier (`RandomForestClassifier`), modelled by the
training set it was last fit on; its predictions are treated as opaque
inputs where the source consumes them. -/
structure Classifier where
  trainX : List (List ℚ)
  trainY : List ℕ

/-- Errors surfaced by the training path. -/
inductive UpdateError
  | validationError
  deriving DecidableEq

/-- The `model.fit(X, y)` call: sklearn validates that `X` and `y` have the same
number of samples and raises otherwise; on success the classifier is refit
on exactly `(X, y)`. -/
def fit (X : List (List ℚ)) (y : List ℕ) : Except UpdateError Classifier :=
  if X.length = y.length then .ok { trainX := X, trainY := y }
  else .error .validationError

end Sklearn

namespace FeatureEngineering

/-- A parsed datetime, as a day count (what `(created - dob).days` exposes). -/
abbrev Date := ℤ

/-- The optional `address` sub-dictionary of a raw record. -/
structure AddressRec where
  address : Option String
  city : Option String
  country : Option String
  postalCode : Option String

/-- A raw KYC record as consumed by `FeatureEngineer.engineer_features`;
`none` models an absent (or JSON-null) field. -/
structure RawRecord where
  dateOfBirth : Option Date
  createdAt : Option Date
  email : Option String
  address : AddressRec
  riskScore : ℚ
  documentType : Option String
  documentNumber : Option String
  firstName : Option String
  lastName : Option String

/-- The engineered feature dictionary produced by `engineer_features`. -/
structure Features where
  age : Option ℚ
  emailDomain : String
  location : String
  riskScore : ℚ
  documentType : String
  documentNumber : Option String
  firstName : Option String
  lastName : Option String

/-- Source `calculate_age`: `None` if either date is missing, else the day
difference divided by `365.25`. -/
def calculate_age (dob createdAt : Option Date) : Option ℚ :=
  match dob, createdAt with
  | some d, some c => some (((c - d : ℤ) : ℚ) / 365.25)
  | _, _ => none

/-- Source `extract_email_domain`: `"unknown"` when the email is falsy or has no
`'@'`; otherwise `email.split('@')[1].lower()`. -/
def extract_email_domain (email : Option String) : String :=
  match email with
  | none => "unknown"
  | some e =>
    if e.data = [] ∨ '@' ∉ e.data then "unknown"
    else String.mk (((Py.splitOnChar '@' e.data).getD 1 []).map Char.toLower)

/-- Source `combine_location`: comma-join of the truthy entries among
`address, city, country, postal_code`, in that order. -/
def combine_location (a : AddressRec) : String :=
  String.intercalate ", "
    (([a.address, a.city, a.country, a.postalCode].filterMap id).filter
      (fun s => s ≠ ""))

/-- Source `engineer_features`.  Here `now` is the value of `datetime.now()` at call
time: the source uses it as the default for a missing `created_at`
(`data.get('created_at', datetime.now().isoformat())`). -/
def engineer_features (data : RawRecord) (now : Date) : Features :=
  { age := calculate_age data.dateOfBirth (some (data.createdAt.getD now))
    emailDomain := extract_email_domain data.email
    location := combine_location data.address
    riskScore := if data.riskScore ≠ 0 then 100 - data.riskScore else 0
    documentType := data.documentType.getD "unknown"
    documentNumber := data.documentNumber
    firstName := data.firstName
    lastName := data.lastName }

end FeatureEngineering

namespace KycFraud

/-- The input features dictionary of the KYC `fraud_detection.py` script,
with every numeric field the model consumes present. -/
structure KycFeatures where
  transactionAmount : ℚ
  logAmount : ℚ
  hourOfDay : ℚ
  dayOfWeek : ℚ
  transactionFrequency : ℚ
  userAge : ℚ
  accountAge : ℚ
  previousFraudReports : ℚ
  documentQuality : ℚ
  documentAge : ℚ
  countryRiskScore : ℚ
  ipRiskScore : ℚ
  loginAttempts : ℚ
  failedLogins : ℚ
  documentType : String

/-- Source `preprocess_features`: column selection `df[feature_columns]` in the
source's `feature_columns` order, for an input row whose required fields
are all present (the structure above makes the `sys.exit` missing-feature
path unreachable).  `pd.get_dummies` on a single row yields exactly one
`doc_type_<value>` indicator column with value `1`; it is the final
column. -/
def preprocess_features (f : KycFeatures) : List ℚ :=
  [f.transactionAmount, f.logAmount, f.hourOfDay, f.dayOfWeek,
   f.transactionFrequency, f.userAge, f.accountAge, f.previousFraudReports,
   f.documentQuality, f.documentAge, f.countryRiskScore, f.ipRiskScore,
   f.loginAttempts, f.failedLogins, 1]

/-- The statement `X_scaled = scaler.transform(X)` (lines 107-110 of `predict`): the
persisted scaler loaded from the artifact is applied and not mutated. -/
def scaleStep (sc : Sklearn.Scaler) (x : List ℚ) : Sklearn.Scaler × List ℚ :=
  (sc, sc.transformRow x)

/-- Source `calculate_risk_level`. -/
def calculate_risk_level (risk_score : ℚ) : String :=
  if risk_score < 33 then "low"
  else if risk_score < 67 then "medium"
  else "high"

/-- The list of risk-factor strings built by `generate_explanation`'s four
hard-coded checks, in source order. -/
def risk_factor_checks (x : KycFeatures) : List String :=
  (if x.transactionAmount > 10000 then ["High transaction amount"] else []) ++
  (if x.documentQuality < 7/10 then ["Low document quality"] else []) ++
  (if x.countryRiskScore > 7/10 then ["High-risk country"] else []) ++
  (if x.failedLogins > 3 then ["Multiple failed login attempts"] else [])

/-- Source `generate_explanation(prediction, features)`: the `prediction` argument
is accepted but unused by the source.  Joins the risk factors with `" | "`,
falling back to the fixed sentence when none fired. -/
def generate_explanation (_prediction : ℕ) (x : KycFeatures) : String :=
  let risk_factors := risk_factor_checks x
  String.intercalate " | "
    (if risk_factors = [] then ["No significant risk factors identified"]
     else risk_factors)

/-- The result dictionary of `predict`. -/
structure KycResult where
  riskLevel : String
  riskScore : ℚ
  confidence : ℚ
  explanation : String
  riskFactors : List String
  recommendedAction : String

/-- The result construction of `predict` (lines 113–127): `proba0, proba1`
are `model.predict_proba(X_scaled)[0]` and `prediction` is
`model.predict(X_scaled)[0]`, both opaque classifier outputs. -/
def predict (_proba0 proba1 : ℚ) (prediction : ℕ) (x : KycFeatures) :
    KycResult :=
  let risk_score := proba1 * 100
  { riskLevel := calculate_risk_level risk_score
    riskScore := risk_score
    confidence := proba1
    explanation := generate_explanation prediction x
    riskFactors := Py.pySplitBar (generate_explanation prediction x)
    recommendedAction :=
      if risk_score > 66 then "Enhanced verification required"
      else "Standard verification" }

/-- The training payload of `update`: feature rows and labels. -/
structure TrainingData where
  features : List KycFeatures
  labels : List ℕ

/-- The `(model, scaler)` pair persisted at `model_path` via `joblib`. -/
structure ModelFile where
  clf : Sklearn.Classifier
  scaler : Sklearn.Scaler

/-- Source `update` (lines 132-159): preprocess the rows, scale them with the
loaded scaler, refit the classifier, and only then dump the new pair.
`model.fit` fails when `X` and `y` disagree in length, in which case
nothing is written. -/
def update (file : ModelFile) (d : TrainingData) :
    Except Sklearn.UpdateError ModelFile :=
  let X := d.features.map preprocess_features
  let X_scaled := X.map file.scaler.transformRow
  match Sklearn.fit X_scaled d.labels with
  | .error e => .error e
  | .ok m => .ok { clf := m, scaler := file.scaler }

/-- State semantics of running `update` against the persisted model file:
on any error the file on disk is left exactly as it was, because
`joblib.dump` is the final statement of the function. -/
def runUpdate (file : ModelFile) (d : TrainingData) :
    ModelFile × Option Sklearn.UpdateError :=
  match update file d with
  | .ok f' => (f', none)
  | .error e => (file, some e)

end KycFraud

namespace AmlFraud

/-- The fixed feature-schema order of the AML `FraudDetectionModel`. -/
def featureNames : List String :=
  ["amount", "transaction_count", "average_amount", "amount_deviation",
   "user_age", "account_age", "country_risk", "ip_risk",
   "login_attempts", "failed_logins", "device_changes",
   "pep_status", "sanction_list", "watch_list"]

/-- The input features of `FraudDetectionModel`, all present (`pep_status`
and the list flags already coerced to numbers by `float(...)`). -/
structure AmlFeatures where
  amount : ℚ
  transactionCount : ℚ
  averageAmount : ℚ
  amountDeviation : ℚ
  userAge : ℚ
  accountAge : ℚ
  countryRisk : ℚ
  ipRisk : ℚ
  loginAttempts : ℚ
  failedLogins : ℚ
  deviceChanges : ℚ
  pepStatus : ℚ
  sanctionList : ℚ
  watchList : ℚ

/-- The feature row `X` assembled by `preprocess_features`, in
`featureNames` order. -/
def toVec (f : AmlFeatures) : List ℚ :=
  [f.amount, f.transactionCount, f.averageAmount, f.amountDeviation,
   f.userAge, f.accountAge, f.countryRisk, f.ipRisk,
   f.loginAttempts, f.failedLogins, f.deviceChanges,
   f.pepStatus, f.sanctionList, f.watchList]

/-- Source `FraudDetectionModel.preprocess_features`: builds the single-row matrix
and then calls `self.scaler.fit_transform(X)`, which refits the instance's
scaler on that one row before transforming it.  Returns the mutated scaler
together with the transformed row. -/
def preprocess_features (_sc : Sklearn.Scaler) (f : AmlFeatures) :
    Sklearn.Scaler × List ℚ :=
  let sc' := Sklearn.fitSingleRow (toVec f)
  (sc', sc'.transformRow (toVec f))

/-- Python `f"{x:.2f}"` on a nonnegative value, with the decimal rounding
of the float formatter modelled as round-half-up to two places. -/
def fmt2 (q : ℚ) : String :=
  let n : ℤ := round (q * 100)
  toString (n / 100) ++ "." ++
    (if n.natAbs % 100 < 10 then "0" else "") ++ toString (n.natAbs % 100)

/-- The dictionary `dict(zip(feature_names, self.model.feature_importances_))`, as an
association list in schema order. -/
def feature_importance (imps : List ℚ) : List (String × ℚ) :=
  featureNames.zip imps

/-- The `(feature, importance)` pairs retained by the explanation loop:
those with importance strictly above `0.1`, in iteration (schema) order. -/
def significant (imps : List ℚ) : List (String × ℚ) :=
  (feature_importance imps).filter (fun p => p.2 > 1/10)

/-- The `risk_factors` list built by `FraudDetectionModel.predict`
(lines 85–89): one `f"{feature}: {importance:.2f}"` entry per significant
feature, in iteration order. -/
def risk_factors (imps : List ℚ) : List String :=
  (significant imps).map (fun p => p.1 ++ ": " ++ fmt2 p.2)

/-- The `explanation` field: `f"Risk factors: {', '.join(risk_factors)}"`. -/
def explanation (imps : List ℚ) : String :=
  "Risk factors: " ++ String.intercalate ", " (risk_factors imps)

end AmlFraud

namespace ModelRegistry

/-- Catalog metadata of one model artifact (`AIModelInfo`); timestamps are
abstract instants, `accuracy` a rational. -/
structure AIModelInfo where
  id : String
  name : String
  version : String
  type : String
  accuracy : ℚ
  createdAt : ℕ

/-- The expression `sorted(models, key=lambda m: m.version, reverse=True)[0]`: Python's
stable sort in reverse leaves elements with equal keys in input order, so
index `0` is the first element whose version string is maximal under
Python's lexicographic string comparison. -/
def maxByVersion (l : List AIModelInfo) : Option AIModelInfo :=
  l.foldl
    (fun acc m =>
      match acc with
      | none => some m
      | some a =>
        if Py.pyStrLt a.version.data m.version.data then some m else some a)
    none

/-- Source `get_model_by_type`: filter the catalog by `type`, then pick the head
of the version-string-descending sort; `None` when no artifact of that
type exists. -/
def get_model_by_type (catalog : List AIModelInfo) (t : String) :
    Option AIModelInfo :=
  maxByVersion (catalog.filter (fun m => m.type == t))

/-- The four artifacts written by `_create_default_models`: fixed names,
types, versions and accuracies; ids come from `uuid.uuid4()` and the
timestamps from `datetime.now()`, both supplied by the environment. -/
def default_models (ids : List String) (now : ℕ) : List AIModelInfo :=
  [{ id := ids.getD 0 "", name := "Document Verification Model",
     version := "1.0.0", type := "DOCUMENT", accuracy := 98/100,
     createdAt := now },
   { id := ids.getD 1 "", name := "Face Recognition Model",
     version := "1.0.0", type := "FACE", accuracy := 95/100,
     createdAt := now },
   { id := ids.getD 2 "", name := "Risk Analysis Model",
     version := "1.0.0", type := "RISK", accuracy := 92/100,
     createdAt := now },
   { id := ids.getD 3 "", name := "Anomaly Detection Model",
     version := "1.0.0", type := "ANOMALY", accuracy := 90/100,
     createdAt := now }]

/-- Source `list_models`: returns the catalog; only when it is empty does it call
`_create_default_models`, which also persists the defaults.  The pair is
`(returned list, catalog state afterwards)`. -/
def list_models (catalog : List AIModelInfo) (ids : List String) (now : ℕ) :
    List AIModelInfo × List AIModelInfo :=
  if catalog.isEmpty then
    let d := default_models ids now
    (d, d)
  else (catalog, catalog)

/-- Digits of a version component read as a base-10 natural number. -/
def digitsToNat (l : List Char) : ℕ :=
  l.foldl (fun n c => 10 * n + (c.toNat - '0'.toNat)) 0

/-- Modelled from the spec: parse a `major.minor.patch` semantic version
into its three integer components (the source never does this; the spec
mandates numeric comparison in place of the source's string sort). -/
def parseSemver (v : String) : ℕ × ℕ × ℕ :=
  match (Py.splitOnChar '.' v.data).map digitsToNat with
  | [a, b, c] => (a, b, c)
  | _ => (0, 0, 0)

/-- Modelled from the spec: numeric semantic-version ordering — major,
minor, patch each compared as integers, lexicographically by component. -/
def semverLtB : ℕ × ℕ × ℕ → ℕ × ℕ × ℕ → Bool
  | (a, b, c), (d, e, f) =>
    a < d || (a = d && (b < e || (b = e && c < f)))

/-- Modelled from the spec: the `get_latest` the spec mandates — among the
artifacts of a type, the one with the numerically greatest semantic
version. -/
def spec_get_latest (catalog : List AIModelInfo) (t : String) :
    Option AIModelInfo :=
  (catalog.filter (fun m => m.type == t)).foldl
    (fun acc m =>
      match acc with
      | none => some m
      | some a =>
        if semverLtB (parseSemver a.version) (parseSemver m.version) then
          some m
        else some a)
    none

end ModelRegistry

/-! Helper lemmas shared by the claim theorems. -/

theorem splitBar_ne_nil (s : List Char) : Py.splitBar s ≠ [] := by
  rw [Py.splitBar.eq_def]
  split
  · simp
  · split <;> simp
  · simp

theorem splitOnChar_ne_nil (c : Char) (s : List Char) :
    Py.splitOnChar c s ≠ [] := by
  rw [Py.splitOnChar.eq_def]
  split
  · simp
  · split
    · simp
    · split <;> simp

theorem splitOnChar_not_mem {c : Char} {l : List Char} (h : c ∉ l) :
    Py.splitOnChar c l = [l] := by
  induction l with
  | nil => rfl
  | cons x xs ih =>
    have hx : x ≠ c := fun hxc => h (hxc ▸ List.mem_cons_self x xs)
    have hxs : c ∉ xs := fun hc => h (List.mem_cons_of_mem x hc)
    rw [Py.splitOnChar, ih hxs]
    simp [hx]

theorem splitOnChar_append {c : Char} {l d : List Char} (h : c ∉ l) :
    Py.splitOnChar c (l ++ c :: d) = l :: Py.splitOnChar c d := by
  induction l with
  | nil =>
    rw [List.nil_append, Py.splitOnChar]
    rcases hg : Py.splitOnChar c d with _ | ⟨g, gs⟩
    · exact absurd hg (splitOnChar_ne_nil c d)
    · simp
  | cons x xs ih =>
    have hx : x ≠ c := fun hxc => h (hxc ▸ List.mem_cons_self x xs)
    have hxs : c ∉ xs := fun hc => h (List.mem_cons_of_mem x hc)
    rw [List.cons_append, Py.splitOnChar, ih hxs]
    simp [hx]

theorem aml_risk_factors_nil (imps : List ℚ) (h : ∀ i ∈ imps, i ≤ 1/10) :
    AmlFraud.risk_factors imps = [] := by
  have hf : AmlFraud.significant imps = [] := by
    rw [AmlFraud.significant, List.filter_eq_nil_iff]
    intro p hp
    have hmem := List.of_mem_zip hp
    have := h p.2 hmem.2
    simp only [decide_eq_true_eq, gt_iff_lt, not_lt]
    exact this
  rw [AmlFraud.risk_factors, hf, List.map_nil]

/-! Claim theorems. -/

/-- C2: for every risk score in `[0,100]` the tier discretization is the
total partition `score < 33 → low`, `33 ≤ score < 67 → medium`,
`score ≥ 67 → high`, with no gap or overlap. -/
theorem C2_risk_level_partition (s : ℚ) (_h0 : 0 ≤ s) (_h1 : s ≤ 100) :
    (KycFraud.calculate_risk_level s = "low" ↔ s < 33) ∧
    (KycFraud.calculate_risk_level s = "medium" ↔ 33 ≤ s ∧ s < 67) ∧
    (KycFraud.calculate_risk_level s = "high" ↔ 67 ≤ s) := by
  unfold KycFraud.calculate_risk_level
  split_ifs with ha hb
  · exact ⟨iff_of_true rfl ha,
      iff_of_false (by decide) (fun hc => absurd ha (by linarith [hc.1])),
      iff_of_false (by decide) (by linarith)⟩
  · exact ⟨iff_of_false (by decide) ha,
      iff_of_true rfl ⟨not_lt.mp ha, hb⟩,
      iff_of_false (by decide) (by linarith)⟩
  · exact ⟨iff_of_false (by decide) ha,
      iff_of_false (by decide) (fun hc => hb hc.2),
      iff_of_true rfl (not_lt.mp hb)⟩

/-- C2 witness: `66.9` is in the medium tier. -/
theorem C2_risk_level_witness :
    KycFraud.calculate_risk_level (669/10) = "medium" :=
  ((C2_risk_level_partition (669/10) (by norm_num) (by norm_num)).2.1).mpr
    ⟨by norm_num, by norm_num⟩

/-- C3: the code recommends `"Enhanced verification required"` already for
`risk_score > 66`, not `> 67`: a classifier probability of `0.665` gives
`risk_score = 66.5`, still below the HIGH boundary `67` (the tier is
`medium`), yet the recommended action is the enhanced one — the
inconsistent 66/67 split the spec flags as a defect.  The `0.95` example
of the claim does hold: `risk_score = 95`, tier `high`, enhanced action. -/
theorem C3_recommended_action_boundary_bug :
    ((KycFraud.predict (67/200) (133/200) 0
        ⟨0, 0, 0, 0, 0, 0, 0, 0, 1, 0, 0, 0, 0, 0, "passport"⟩).riskScore
        = 133/2) ∧
    ((133:ℚ)/2 < 67) ∧
    ((KycFraud.predict (67/200) (133/200) 0
        ⟨0, 0, 0, 0, 0, 0, 0, 0, 1, 0, 0, 0, 0, 0, "passport"⟩).riskLevel
        = "medium") ∧
    ((KycFraud.predict (67/200) (133/200) 0
        ⟨0, 0, 0, 0, 0, 0, 0, 0, 1, 0, 0, 0, 0, 0, "passport"⟩).recommendedAction
        = "Enhanced verification required") ∧
    ((KycFraud.predict (1/20) (19/20) 1
        ⟨0, 0, 0, 0, 0, 0, 0, 0, 1, 0, 0, 0, 0, 0, "passport"⟩).riskScore
        = 95) ∧
    ((KycFraud.predict (1/20) (19/20) 1
        ⟨0, 0, 0, 0, 0, 0, 0, 0, 1, 0, 0, 0, 0, 0, "passport"⟩).riskLevel
        = "high") ∧
    ((KycFraud.predict (1/20) (19/20) 1
        ⟨0, 0, 0, 0, 0, 0, 0, 0, 1, 0, 0, 0, 0, 0, "passport"⟩).recommendedAction
        = "Enhanced verification required") := by
  refine ⟨by norm_num [KycFraud.predict], ?_, ?_, ?_, ?_, ?_, ?_⟩
  · norm_num
  · show KycFraud.calculate_risk_level ((133/200) * 100) = "medium"
    rw [KycFraud.calculate_risk_level,
      if_neg (by norm_num), if_pos (by norm_num)]
  · show (if ((133:ℚ)/200) * 100 > 66 then "Enhanced verification required"
        else "Standard verification") = "Enhanced verification required"
    rw [if_pos (by norm_num)]
  · norm_num [KycFraud.predict]
  · show KycFraud.calculate_risk_level ((19/20) * 100) = "high"
    rw [KycFraud.calculate_risk_level,
      if_neg (by norm_num), if_neg (by norm_num)]
  · show (if ((19:ℚ)/20) * 100 > 66 then "Enhanced verification required"
        else "Standard verification") = "Enhanced verification required"
    rw [if_pos (by norm_num)]

/-- C10: in every prediction result the reported confidence is the
positive-class probability — `risk_score / 100` — independently of the
predicted class, and `risk_factors` is exactly the explanation split on
`" | "`, hence never empty. -/
theorem C10_confidence_and_risk_factors (p0 p1 : ℚ) (pred pred' : ℕ)
    (x : KycFraud.KycFeatures) :
    ((KycFraud.predict p0 p1 pred x).confidence
      = (KycFraud.predict p0 p1 pred x).riskScore / 100) ∧
    ((KycFraud.predict p0 p1 pred x).confidence
      = (KycFraud.predict p0 p1 pred' x).confidence) ∧
    ((KycFraud.predict p0 p1 pred x).riskFactors
      = Py.pySplitBar (KycFraud.predict p0 p1 pred x).explanation) ∧
    (KycFraud.predict p0 p1 pred x).riskFactors ≠ [] := by
  refine ⟨?_, rfl, rfl, ?_⟩
  · show p1 = p1 * 100 / 100
    rw [mul_div_assoc]
    norm_num
  · show Py.pySplitBar (KycFraud.generate_explanation pred x) ≠ []
    rw [Py.pySplitBar]
    simp [splitBar_ne_nil]

/-- C7: an update batch whose features and labels disagree in length fails
with a validation error before anything is written, so the persisted
classifier/scaler pair is exactly what it was before the call. -/
theorem C7_update_mismatch_unchanged (file : KycFraud.ModelFile)
    (d : KycFraud.TrainingData)
    (h : d.features.length ≠ d.labels.length) :
    KycFraud.runUpdate file d =
      (file, some Sklearn.UpdateError.validationError) := by
  rw [KycFraud.runUpdate, KycFraud.update, Sklearn.fit]
  rw [if_neg (by simpa using h)]

/-- C7 witness: one feature row against two labels is rejected and the
model file is untouched. -/
theorem C7_update_mismatch_witness :
    KycFraud.runUpdate ⟨⟨[], []⟩, ⟨[], []⟩⟩
      ⟨[⟨0, 0, 0, 0, 0, 0, 0, 0, 1, 0, 0, 0, 0, 0, "passport"⟩], [0, 1]⟩ =
      (⟨⟨[], []⟩, ⟨[], []⟩⟩, some Sklearn.UpdateError.validationError) :=
  C7_update_mismatch_unchanged _ _ (by decide)

/-- C1: `get_model_by_type` sorts raw version strings, so "latest" is the
lexicographic maximum, not the numeric one: with published RISK versions
`"1.2.0"` and `"1.10.0"` it returns `"1.2.0"`, while the numeric
semantic-version order the claim mandates selects `"1.10.0"`.  On the
claim's own example list the two orders happen to agree (`"2.0.0"` wins),
and the empty catalog does yield not-found. -/
theorem C1_get_latest_lexicographic_bug :
    (ModelRegistry.get_model_by_type
        [⟨"id-a", "Risk Analysis Model", "1.2.0", "RISK", 92/100, 0⟩,
         ⟨"id-b", "Risk Analysis Model", "1.10.0", "RISK", 92/100, 0⟩]
        "RISK"
      = some ⟨"id-a", "Risk Analysis Model", "1.2.0", "RISK", 92/100, 0⟩) ∧
    (ModelRegistry.spec_get_latest
        [⟨"id-a", "Risk Analysis Model", "1.2.0", "RISK", 92/100, 0⟩,
         ⟨"id-b", "Risk Analysis Model", "1.10.0", "RISK", 92/100, 0⟩]
        "RISK"
      = some ⟨"id-b", "Risk Analysis Model", "1.10.0", "RISK", 92/100, 0⟩) ∧
    (ModelRegistry.get_model_by_type
        [⟨"id-a", "Risk Analysis Model", "1.2.0", "RISK", 92/100, 0⟩,
         ⟨"id-b", "Risk Analysis Model", "1.10.0", "RISK", 92/100, 0⟩,
         ⟨"id-c", "Risk Analysis Model", "2.0.0", "RISK", 92/100, 0⟩]
        "RISK"
      = some ⟨"id-c", "Risk Analysis Model", "2.0.0", "RISK", 92/100, 0⟩) ∧
    (ModelRegistry.get_model_by_type [] "RISK" = none) :=
  ⟨rfl, rfl, rfl, rfl⟩

/-- C9 counterexample: `get_model_by_type` never seeds the catalog — on an
empty catalog (no prior `list_models` call, no upload) a lookup by a known
type returns not-found, and being a pure read it leaves the catalog empty,
so the claimed "first registry use seeds the defaults, hence lookups never
spuriously fail" is false when the first use is a get-by-type. -/
theorem C9_get_before_list_not_found :
    ModelRegistry.get_model_by_type [] "DOCUMENT" = none ∧
    ModelRegistry.get_model_by_type [] "FACE" = none :=
  ⟨rfl, rfl⟩

/-- C9 amended: seeding happens only in `list_models`: when it runs on the
empty catalog it publishes exactly one default artifact per each of the
four known types, after which get-by-type succeeds for each of them. -/
theorem C9_list_models_seeds_defaults (ids : List String) (now : ℕ)
    (t : String)
    (h : t = "DOCUMENT" ∨ t = "FACE" ∨ t = "RISK" ∨ t = "ANOMALY") :
    (((ModelRegistry.list_models [] ids now).2.filter
        (fun m => m.type == t)).length = 1) ∧
    (ModelRegistry.get_model_by_type
        (ModelRegistry.list_models [] ids now).2 t).isSome = true := by
  rcases h with h | h | h | h <;> subst h <;> exact ⟨rfl, rfl⟩

/-- C9 witness: after `list_models` seeds the empty catalog, a RISK lookup
succeeds and exactly one RISK artifact exists. -/
theorem C9_seeding_witness :
    (((ModelRegistry.list_models [] ["d", "f", "r", "a"] 0).2.filter
        (fun m => m.type == "RISK")).length = 1) ∧
    (ModelRegistry.get_model_by_type
        (ModelRegistry.list_models [] ["d", "f", "r", "a"] 0).2
        "RISK").isSome = true :=
  C9_list_models_seeds_defaults ["d", "f", "r", "a"] 0 "RISK"
    (Or.inr (Or.inr (Or.inl rfl)))

/-- C4 counterexample: the AML explanation keeps significant features in
the fixed schema order, not descending importance — with importances
`amount = 0.2` and `transaction_count = 0.5` the lower-importance feature
comes first — and when no importance exceeds the threshold the explanation
is the literal `"Risk factors: "`, not
`"no significant risk factors identified"`. -/
theorem C4_order_and_empty_literal_counterexample :
    (AmlFraud.significant [1/5, 1/2, 0, 0, 0, 0, 0, 0, 0, 0, 0, 0, 0, 0]
      = [("amount", 1/5), ("transaction_count", 1/2)]) ∧
    ((1:ℚ)/5 < 1/2) ∧
    (AmlFraud.explanation (List.replicate 14 0) = "Risk factors: ") ∧
    ("Risk factors: " : String) ≠ "no significant risk factors identified" := by
  refine ⟨?_, by norm_num, ?_, by decide⟩
  · simp only [AmlFraud.significant, AmlFraud.feature_importance,
      AmlFraud.featureNames, List.zip, List.zipWith, List.filter]
    norm_num
  · have h := aml_risk_factors_nil (List.replicate 14 0)
      (by intro i hi; rw [List.eq_of_mem_replicate hi]; norm_num)
    rw [AmlFraud.explanation, h]
    rfl

/-- C4 amended: `risk_factors` contains exactly the features whose
importance exceeds the `0.1` threshold, but in the fixed feature-schema
(iteration) order — a sublist of the schema order, not a descending sort —
and when none exceeds the threshold the explanation is the literal
`"Risk factors: "`; the whole explanation is a function of the importances
alone. -/
theorem C4_risk_factors_amended (imps : List ℚ) :
    (∀ p, p ∈ AmlFraud.significant imps ↔
        p ∈ AmlFraud.feature_importance imps ∧ p.2 > 1/10) ∧
    (AmlFraud.significant imps).Sublist (AmlFraud.feature_importance imps) ∧
    ((∀ i ∈ imps, i ≤ 1/10) →
        AmlFraud.explanation imps = "Risk factors: ") := by
  refine ⟨?_, List.filter_sublist _, ?_⟩
  · intro p
    simp [AmlFraud.significant, List.mem_filter]
  · intro h
    rw [AmlFraud.explanation, aml_risk_factors_nil imps h]
    rfl

/-- C4 witness: with every importance at `0.05` the explanation degrades to
the bare prefix. -/
theorem C4_amended_witness :
    AmlFraud.explanation (List.replicate 14 (1/20)) = "Risk factors: " :=
  (C4_risk_factors_amended (List.replicate 14 (1/20))).2.2
    (by intro i hi; rw [List.eq_of_mem_replicate hi]; norm_num)

/-- C5: `engineer_features` defaults a missing `created_at` to the wall
clock (`datetime.now()`), so the same raw record — date of birth present,
`created_at` absent — engineered at two different instants yields two
different feature vectors (ages 100 and 0 here): feature engineering is
not deterministic on such inputs, contradicting the claim. -/
theorem C5_engineer_wall_clock_bug :
    ((FeatureEngineering.engineer_features
        ⟨some 0, none, none, ⟨none, none, none, none⟩, 0, none, none, none,
          none⟩ 36525).age = some 100) ∧
    ((FeatureEngineering.engineer_features
        ⟨some 0, none, none, ⟨none, none, none, none⟩, 0, none, none, none,
          none⟩ 0).age = some 0) ∧
    (FeatureEngineering.engineer_features
        ⟨some 0, none, none, ⟨none, none, none, none⟩, 0, none, none, none,
          none⟩ 36525 ≠
      FeatureEngineering.engineer_features
        ⟨some 0, none, none, ⟨none, none, none, none⟩, 0, none, none, none,
          none⟩ 0) := by
  have h1 : (FeatureEngineering.engineer_features
      ⟨some 0, none, none, ⟨none, none, none, none⟩, 0, none, none, none,
        none⟩ 36525).age = some 100 := by
    show FeatureEngineering.calculate_age (some 0) (some 36525) = some 100
    rw [FeatureEngineering.calculate_age]
    norm_num
  have h2 : (FeatureEngineering.engineer_features
      ⟨some 0, none, none, ⟨none, none, none, none⟩, 0, none, none, none,
        none⟩ 0).age = some 0 := by
    show FeatureEngineering.calculate_age (some 0) (some 0) = some 0
    rw [FeatureEngineering.calculate_age]
    norm_num
  refine ⟨h1, h2, fun h => ?_⟩
  have hage := congrArg FeatureEngineering.Features.age h
  rw [h1, h2] at hage
  have : (100 : ℚ) = 0 := Option.some.inj hage
  norm_num at this

/-- C6 counterexample: `extract_email_domain` returns `"unknown"` only when
the email is falsy or lacks `'@'`; on the malformed address `"a@"` (no
domain) it returns the empty string instead of `"unknown"`. -/
theorem C6_malformed_email_counterexample :
    FeatureEngineering.extract_email_domain (some "a@") = "" ∧
    ("" : String) ≠ "unknown" := by
  exact ⟨by decide, by decide⟩

/-- C6 amended: for any email of the shape `local@rest` with `'@'` in
neither part, the result is the lowercased text after the first `'@'`
(possibly the empty string); `"unknown"` is returned exactly when the email
is absent, empty, or has no `'@'` at all. -/
theorem C6_email_domain_amended :
    (∀ l d : List Char, '@' ∉ l → '@' ∉ d →
        FeatureEngineering.extract_email_domain
          (some (String.mk (l ++ '@' :: d))) =
          String.mk (d.map Char.toLower)) ∧
    (FeatureEngineering.extract_email_domain none = "unknown") ∧
    (∀ e : String, e.data = [] ∨ '@' ∉ e.data →
        FeatureEngineering.extract_email_domain (some e) = "unknown") := by
  refine ⟨?_, rfl, ?_⟩
  · intro l d hl hd
    rw [FeatureEngineering.extract_email_domain]
    rw [if_neg (by
      push_neg
      exact ⟨by simp, by simp⟩)]
    rw [show (String.mk (l ++ '@' :: d)).data = l ++ '@' :: d from rfl]
    rw [splitOnChar_append hl, splitOnChar_not_mem hd]
    rfl
  · intro e he
    rw [FeatureEngineering.extract_email_domain, if_pos he]

/-- C6 witness: `"a@Example.COM"` maps to `"example.com"` and a missing
email to `"unknown"`. -/
theorem C6_email_domain_witness :
    FeatureEngineering.extract_email_domain (some "a@Example.COM") =
      "example.com" ∧
    FeatureEngineering.extract_email_domain none = "unknown" := by
  refine ⟨?_, C6_email_domain_amended.2.1⟩
  exact C6_email_domain_amended.1 ['a'] "Example.COM".data (by decide)
    (by decide)

/-- C8: the AML scorer refits its scaler on the incoming request's own
single-row features (`fit_transform` inside `preprocess_features`): after
the call the scaler's mean is the request row itself — not the persisted
artifact parameters (mean 5, scale 2 here) — and the transformed vector
collapses to all zeros; the KYC variant's scale step really does apply the
persisted scaler unchanged. -/
theorem C8_scaler_refit_bug :
    ((AmlFraud.preprocess_features
        ⟨[5, 5, 5, 5, 5, 5, 5, 5, 5, 5, 5, 5, 5, 5],
         [2, 2, 2, 2, 2, 2, 2, 2, 2, 2, 2, 2, 2, 2]⟩
        ⟨1, 1, 1, 1, 1, 1, 1, 1, 1, 1, 1, 1, 1, 1⟩).1.mean
      = AmlFraud.toVec ⟨1, 1, 1, 1, 1, 1, 1, 1, 1, 1, 1, 1, 1, 1⟩) ∧
    ((AmlFraud.preprocess_features
        ⟨[5, 5, 5, 5, 5, 5, 5, 5, 5, 5, 5, 5, 5, 5],
         [2, 2, 2, 2, 2, 2, 2, 2, 2, 2, 2, 2, 2, 2]⟩
        ⟨1, 1, 1, 1, 1, 1, 1, 1, 1, 1, 1, 1, 1, 1⟩).1.mean
      ≠ [5, 5, 5, 5, 5, 5, 5, 5, 5, 5, 5, 5, 5, 5]) ∧
    ((AmlFraud.preprocess_features
        ⟨[5, 5, 5, 5, 5, 5, 5, 5, 5, 5, 5, 5, 5, 5],
         [2, 2, 2, 2, 2, 2, 2, 2, 2, 2, 2, 2, 2, 2]⟩
        ⟨1, 1, 1, 1, 1, 1, 1, 1, 1, 1, 1, 1, 1, 1⟩).2
      = [0, 0, 0, 0, 0, 0, 0, 0, 0, 0, 0, 0, 0, 0]) ∧
    ((KycFraud.scaleStep
        ⟨[5, 5, 5, 5, 5, 5, 5, 5, 5, 5, 5, 5, 5, 5],
         [2, 2, 2, 2, 2, 2, 2, 2, 2, 2, 2, 2, 2, 2]⟩
        (AmlFraud.toVec ⟨1, 1, 1, 1, 1, 1, 1, 1, 1, 1, 1, 1, 1, 1⟩)).1
      = ⟨[5, 5, 5, 5, 5, 5, 5, 5, 5, 5, 5, 5, 5, 5],
         [2, 2, 2, 2, 2, 2, 2, 2, 2, 2, 2, 2, 2, 2]⟩) := by
  refine ⟨rfl, fun h => ?_, ?_, rfl⟩
  · have := congrArg List.headI h
    simp [AmlFraud.preprocess_features, Sklearn.fitSingleRow,
      AmlFraud.toVec] at this
  · simp only [AmlFraud.preprocess_features, Sklearn.fitSingleRow,
      Sklearn.Scaler.transformRow, AmlFraud.toVec, List.map, List.zip,
      List.zipWith]
    norm_num
